import Mathlib

/-!
Verification of the conversation-orchestration core of the viki.ai service.

The definitions below are a shallow embedding of the Python source.  Each
definition names the source function it embeds (file and symbol).  External
effects (the MCP client, the LLM provider, JSON parsing of argument strings,
UUID generation, wall-clock timestamps) are abstracted into explicit oracle
parameters / counters, so that every definition is executable; the control
flow, string formats and branch structure are taken from the source verbatim.
-/

namespace Viki

/-- Whether the character list starts with the given pattern. -/
def charsStartsWith : List Char → List Char → Bool
  | _, [] => true
  | [], _ :: _ => false
  | c :: cs, p :: ps => c == p && charsStartsWith cs ps

/-- Split a character list at the first occurrence of the (non-empty)
pattern: the part before it and the part after it, or none when the pattern
does not occur. -/
def charsSplitOnce (sep : List Char) : List Char → Option (List Char × List Char)
  | [] => none
  | c :: cs =>
    if charsStartsWith (c :: cs) sep then some ([], (c :: cs).drop sep.length)
    else
      match charsSplitOnce sep cs with
      | some p => some (c :: p.1, p.2)
      | none => none

/-- Fuel-driven replacement of every occurrence of the pattern; the fuel is
initialized to the list length, which each step consumes no faster than it
consumes characters, so the result is the untruncated replacement. -/
def charsReplaceAllAux (pat rep : List Char) : Nat → List Char → List Char
  | 0, l => l
  | _ + 1, [] => []
  | fuel + 1, c :: cs =>
    if pat ≠ [] ∧ charsStartsWith (c :: cs) pat = true then
      rep ++ charsReplaceAllAux pat rep fuel ((c :: cs).drop pat.length)
    else c :: charsReplaceAllAux pat rep fuel cs

/-- Python str.replace: every occurrence of the pattern replaced. -/
def strReplaceAll (s pat rep : String) : String :=
  ⟨charsReplaceAllAux pat.data rep.data s.data.length s.data⟩

/-- Python str.startswith. -/
def strStartsWith (s pat : String) : Bool :=
  charsStartsWith s.data pat.data

/-- Substring test: Python's membership test on strings, used by the embedded
error classifier; true when the pattern occurs in the string (patterns used
by the source are all non-empty). -/
def strContains (s pat : String) : Bool :=
  (charsSplitOnce pat.data s.data).isSome

/-- Python str.lower, character by character. -/
def strToLower (s : String) : String :=
  ⟨s.data.map Char.toLower⟩

/-- Python membership test of any of the given lowercase terms in the
lowercased string, as in the generator expressions of
chat.create_error_assistant_message. -/
def containsAnyLower (s : String) (terms : List String) : Bool :=
  terms.any (fun t => strContains (strToLower s) t)

/-- Python str.split with maxsplit 1: the part before the first occurrence of
the separator and everything after it, or none when the separator does not
occur. -/
def splitOnce (s sep : String) : Option (String × String) :=
  (charsSplitOnce sep.data s.data).map (fun p => (⟨p.1⟩, ⟨p.2⟩))

/-- One row of the chat_messages table (app/models/chat.py: ChatMessage).
The creation timestamp is modelled as a natural number; rows are kept in
creation order. -/
structure ChatMessage where
  msg_id : String
  msg_cht_id : String
  msg_agent_name : String
  msg_role : String
  msg_content : String
  created_by : String
  last_updated_by : String
  creation_dt : Nat
deriving Repr, DecidableEq

/-- One row of the chat_sessions table (app/models/chat.py: ChatSession),
restricted to the fields the orchestration code reads. -/
structure ChatSession where
  cht_id : String
  cht_agt_id : String
deriving Repr, DecidableEq

/-- One row of the agents table (app/models/agent.py: Agent), restricted to
the fields the orchestration code reads. -/
structure Agent where
  agt_id : String
  agt_name : String
  agt_llc_id : Option String
  agt_system_prompt : Option String
deriving Repr, DecidableEq

/-- The persistent store as the chat endpoints see it, together with the
two generators the source obtains from the environment: uuid4 message ids
(modelled by a counter) and the row-creation timestamp (modelled by a
logical clock; the real column is a server-side default that increases
with insertion order). -/
structure DBState where
  sessions : List ChatSession
  agents : List Agent
  llms : List String
  messages : List ChatMessage
  clock : Nat
  nextId : Nat
deriving Repr, DecidableEq

/-- Draw a fresh message id (models uuid.uuid4 in the endpoints). -/
def freshId (s : DBState) : String × DBState :=
  ("uuid-" ++ toString s.nextId, { s with nextId := s.nextId + 1 })

/-- Append one committed row; the logical clock advances so that later rows
have strictly larger creation timestamps. -/
def appendMsg (s : DBState) (m : ChatMessage) : DBState :=
  { s with messages := s.messages ++ [m], clock := s.clock + 1 }

/-- A Python dict of tool arguments, abstracted to its json.dumps rendering
plus its truthiness (an empty dict is falsy in Python, which the source
relies on when testing modifiedParameters). -/
structure PyDict where
  dump : String
  nonempty : Bool
deriving Repr, DecidableEq

/-- Rendering of the fallback dict built by the source when json.loads fails
on the stored argument string (chat.py: tool_parameters = left as a dict with
the single key arguments). -/
def wrapArgsDump (s : String) : String :=
  "\x7b\"arguments\": \"" ++ s ++ "\"\x7d"

/-- One record of the tool_calls list carried in additional_kwargs of an
AIMessage; the source reads the keys name and arguments of the function
entry with defaults, so both are optional here. -/
structure ToolCallRec where
  name : Option String
  arguments : Option String
deriving Repr, DecidableEq

/-- The canonical tool_input content built by the persistence blocks of
chat.py from the first tool call of a turn. -/
def toolInputContent (tc : ToolCallRec) : String :=
  "Tool: " ++ tc.name.getD "unknown_tool" ++ ", Arguments: " ++ tc.arguments.getD "\x7b\x7d"

/-- A LangChain message as the persistence blocks of chat.py case on it:
by its class name, with its text content (extract_message_content of a
string content is the string itself) and, for AIMessage, the tool_calls
list from additional_kwargs. -/
inductive LCMessage where
  | ai (content : String) (tool_calls : List ToolCallRec)
  | human (content : String)
  | system (content : String)
  | tool (content : String)
  | other (content : String)
deriving Repr, DecidableEq

/-- The role classifier of the main persistence blocks of chat.py
(create_chat_message lines 756-790, identically in
create_chat_session_with_message and update_chat_message): an AIMessage with
falsy (empty) content and a non-empty tool_calls list becomes a tool_input
row carrying the canonical encoding of the first tool call; any other
AIMessage becomes an assistant row with its text; Human/System/Tool messages
map to user/system/tool_response; anything else falls back to assistant. -/
def classify_message (m : LCMessage) : String × String :=
  match m with
  | .ai content tcs =>
    match tcs with
    | tc :: _ =>
      if content = "" then ("tool_input", toolInputContent tc)
      else ("assistant", content)
    | [] => ("assistant", content)
  | .human c => ("user", c)
  | .system c => ("system", c)
  | .tool c => ("tool_response", c)
  | .other c => ("assistant", c)

/-- The role classifier of the continuation block of approve_tool_call
(chat.py lines 1463-1488): it only distinguishes AIMessage (tool call
versus text); every other shape falls back to assistant. -/
def classify_continuation (m : LCMessage) : String × String :=
  match m with
  | .ai content tcs =>
    match tcs with
    | tc :: _ =>
      if content = "" then ("tool_input", toolInputContent tc)
      else ("assistant", content)
    | [] => ("assistant", content)
  | .human c => ("assistant", c)
  | .system c => ("assistant", c)
  | .tool c => ("assistant", c)
  | .other c => ("assistant", c)

/-! Tool Connector connection retry (app/utils/mcpTool.py). -/

/-- MAX_RETRIES of mcpTool.py. -/
def MAX_RETRIES : Nat := 3

/-- BASE_DELAY of mcpTool.py, in milliseconds (0.5 s). -/
def BASE_DELAY_MS : Nat := 500

/-- Backoff delay slept before retry number attempt (attempt is 1-based here
because the source only sleeps when attempt > 0): BASE_DELAY * 2 ^ (attempt - 1),
in milliseconds; every value is a binary fraction so the embedding is exact. -/
def backoffDelay (attempt : Nat) : Nat :=
  BASE_DELAY_MS * 2 ^ (attempt - 1)

/-- Loop body of _create_test_connection_with_retry (mcpTool.py lines 15-40).
The outcome of trying the connection on a given attempt index is supplied by
the oracle (none = the attempt succeeds, some e = it raises an exception whose
str is e).  The result carries the number of attempts actually made and the
total milliseconds slept; the error case re-raises the last exception text.
The out-of-fuel branch models the Python for-loop falling through, which can
only happen when max_retries is 0. -/
def retryAux (attemptResult : Nat → Option String) (maxRetries : Nat) :
    Nat → Nat → Except String (Nat × Nat)
  | attempt, delayAcc =>
    if attempt < maxRetries then
      let delayAcc' := if attempt > 0 then delayAcc + backoffDelay attempt else delayAcc
      match attemptResult attempt with
      | none => .ok (attempt + 1, delayAcc')
      | some e =>
        if attempt = maxRetries - 1 then .error e
        else
          let delayAcc'' :=
            if strContains e "Resource temporarily unavailable" || strContains e "BlockingIOError" then
              delayAcc' + 1000 * (attempt + 1)
            else delayAcc'
          retryAux attemptResult maxRetries (attempt + 1) delayAcc''
    else .error "no connection attempt made"
  termination_by attempt _ => maxRetries - attempt

/-- The function _create_test_connection_with_retry of mcpTool.py, with the
connection attempt abstracted by the outcome oracle. -/
def create_test_connection_with_retry (attemptResult : Nat → Option String)
    (maxRetries : Nat := MAX_RETRIES) : Except String (Nat × Nat) :=
  retryAux attemptResult maxRetries 0 0

/-! Proxy environment scoping (app/utils/proxy.py and the proxy handling of
app/utils/inference.py: configure_llm). -/

/-- The six proxy environment variables the source touches; none means the
variable is unset. -/
structure ProxyEnv where
  http_upper : Option String
  http_lower : Option String
  https_upper : Option String
  https_lower : Option String
  no_upper : Option String
  no_lower : Option String
deriving Repr, DecidableEq

/-- Application proxy settings (config.settings); none models an unset or
empty (falsy) setting, matching the truth tests of update_proxy_config. -/
structure ProxySettings where
  HTTPPROXY : Option String
  HTTPSPROXY : Option String
  NOPROXY : Option String
deriving Repr, DecidableEq

/-- The function update_proxy_config of proxy.py: each configured setting is
written to both the uppercase and lowercase variable; unset settings leave
the variables alone. -/
def update_proxy_config (cfg : ProxySettings) (env : ProxyEnv) : ProxyEnv :=
  let env := match cfg.HTTPPROXY with
    | some v => { env with http_upper := some v, http_lower := some v }
    | none => env
  let env := match cfg.HTTPSPROXY with
    | some v => { env with https_upper := some v, https_lower := some v }
    | none => env
  match cfg.NOPROXY with
  | some v => { env with no_upper := some v, no_lower := some v }
  | none => env

/-- The function delete_proxy_config of proxy.py: all six variables are
popped unconditionally, whatever they held before. -/
def delete_proxy_config (_env : ProxyEnv) : ProxyEnv :=
  ⟨none, none, none, none, none, none⟩

/-- The proxy-environment effect of configure_llm (inference.py lines 95-98
and the finally block at lines 243-247): when proxy_required the variables
are set before the provider model is built and deleted in the finally block,
on the success path and on the failure path alike; buildOk abstracts whether
building the provider model raises.  The returned flag is whether the call
as a whole succeeds. -/
def configure_llm_proxy (proxy_required : Bool) (cfg : ProxySettings)
    (buildOk : Bool) (env : ProxyEnv) : Bool × ProxyEnv :=
  let env1 := if proxy_required then update_proxy_config cfg env else env
  let envFinal := if proxy_required then delete_proxy_config env1 else env1
  (buildOk, envFinal)

/-! Tool execution (app/utils/inference.py: execute_mcp_tool and
process_tool_call_approval). -/

/-- Outcome of awaiting ainvoke on the target tool: its string result, or the
text of the exception it raises. -/
inductive InvokeOutcome where
  | ok (r : String)
  | exn (e : String)
deriving Repr, DecidableEq

/-- The external world of one tool-execution round, abstracting the MCP
client and the JSON library: whether the mcp_servers dict is non-empty,
the outcome of client.get_tools (tool names, or the exception it raises),
the outcome of invoking a named tool on serialized parameters, the result of
json.loads on an argument string (none = raises), and the continuation
messages the LLM produces after a tool result (none = falsy ai_response;
the list is messages_to_persist after the already-seen filter). -/
structure MCPWorld where
  servers : Bool
  getTools : Except String (List String)
  invoke : String → String → InvokeOutcome
  jsonLoads : String → Option PyDict
  continuation : Option (List LCMessage)

/-- The dict returned by execute_mcp_tool. -/
structure ExecResult where
  success : Bool
  result : String
  error : Option String
deriving Repr, DecidableEq

/-- One actual tool invocation: tool name and the parameters it ran with.
The trace of these is how the embedding records whether the external process
was ever invoked. -/
structure Invocation where
  tool : String
  params : PyDict
deriving Repr, DecidableEq

/-- The function execute_mcp_tool of inference.py (lines 450-532): no
configured servers, a get_tools failure, an unknown tool name, an ainvoke
exception and a successful run each produce a structured success/result/error
dict; alongside it the list of invocations actually performed. -/
def execute_mcp_tool (tool_name : String) (parameters : PyDict)
    (w : MCPWorld) : ExecResult × List Invocation :=
  if !w.servers then
    (⟨false, "No MCP servers configured", some "No MCP servers available for tool execution"⟩, [])
  else
    match w.getTools with
    | .error e =>
      let msg := "Error executing tool '" ++ tool_name ++ "': " ++ e
      (⟨false, msg, some msg⟩, [])
    | .ok tools =>
      if tools.contains tool_name then
        match w.invoke tool_name parameters.dump with
        | .ok r => (⟨true, r, none⟩, [⟨tool_name, parameters⟩])
        | .exn e =>
          let msg := "Error executing tool '" ++ tool_name ++ "': " ++ e
          (⟨false, msg, some msg⟩, [⟨tool_name, parameters⟩])
      else
        (⟨false, "Tool '" ++ tool_name ++ "' not found",
          some ("Tool '" ++ tool_name ++ "' not found. Available tools: " ++
            String.intercalate ", " tools)⟩, [])

/-- The dict returned by process_tool_call_approval. -/
structure ApprovalResult where
  success : Bool
  action : String
  tool_name : String
  parameters : PyDict
  result : String
  error : Option String
deriving Repr, DecidableEq

/-- The function process_tool_call_approval of inference.py (lines 353-447):
reject returns a synthesized result without touching the connector; approve
and modify execute with the final parameters (the modified ones only when the
action is modify and they are truthy); any other action is reported as an
error.  The invocation trace is passed through from execute_mcp_tool. -/
def process_tool_call_approval (tool_name : String) (tool_parameters : PyDict)
    (action : String) (w : MCPWorld) (modified_parameters : Option PyDict)
    (rejection_reason : Option String) : ApprovalResult × List Invocation :=
  if action = "reject" then
    let reason := rejection_reason.getD "Tool call was rejected by user"
    (⟨true, "reject", tool_name, tool_parameters,
      "Tool call rejected: " ++ reason, none⟩, [])
  else if action = "approve" ∨ action = "modify" then
    let final_parameters :=
      match modified_parameters with
      | some d => if action = "modify" ∧ d.nonempty then d else tool_parameters
      | none => tool_parameters
    let (execution_result, trace) := execute_mcp_tool tool_name final_parameters w
    (⟨execution_result.success, action, tool_name, final_parameters,
      execution_result.result, execution_result.error⟩, trace)
  else
    let error_msg := "Invalid action: " ++ action ++ ". Must be 'approve', 'modify', or 'reject'"
    (⟨false, action, tool_name, tool_parameters, error_msg, some error_msg⟩, [])

/-! Error classifier (chat.py: create_error_assistant_message, lines 36-261). -/

/-- The exception shapes create_error_assistant_message distinguishes: the
three httpx classes it tests with isinstance, and every other exception,
carried with its str rendering (error_str in the source). -/
inductive PyError where
  | httpStatusError (statusCode : Nat) (text : String)
  | requestError (text : String)
  | timeoutException (text : String)
  | otherError (text : String)
deriving Repr, DecidableEq

/-- The canned user-facing message bodies of create_error_assistant_message,
one per branch that assigns error_content. -/
inductive ErrorMessageKind where
  | payloadTooLarge
  | rateLimited
  | authConfig
  | serviceUnavailable
  | network
  | rateLimitTPM
  | modelGeneration
  | generic
deriving Repr, DecidableEq

/-- First line of each canned error content of the source (the bodies are
multi-paragraph constants; the embedding keeps their distinguishing first
sentence). -/
def errorBody : ErrorMessageKind → String
  | .payloadTooLarge => "I apologize, but your request is too large to process."
  | .rateLimited => "I apologize, but I'm currently receiving too many requests."
  | .authConfig => "I apologize, but there's an authentication issue preventing me from processing your request."
  | .serviceUnavailable => "I apologize, but the AI service is currently experiencing technical difficulties."
  | .network => "I apologize, but I'm having trouble connecting to the AI service."
  | .rateLimitTPM => "I apologize, but I've encountered a rate limit error."
  | .modelGeneration => "I apologize, but I encountered an issue while generating a response."
  | .generic => "I apologize, but I encountered an unexpected error while processing your request."

/-- The classification chain of create_error_assistant_message: which canned
body, if any, is assigned to error_content.  The branch order and every
condition follow the source; none means the function returns None and
persists nothing (the isinstance HTTPStatusError branch leaves error_content
unset for status codes it does not handle, the text rate-limit branch leaves
it unset without per-minute token details, and the event-loop/RuntimeError
branch returns None explicitly). -/
def classify_error (error : PyError) : Option ErrorMessageKind :=
  match error with
  | .httpStatusError code _ =>
    if code = 413 then some .payloadTooLarge
    else if code = 429 then some .rateLimited
    else if code = 401 ∨ code = 403 then some .authConfig
    else if 500 ≤ code then some .serviceUnavailable
    else none
  | .requestError _ => some .network
  | .timeoutException _ => some .network
  | .otherError s =>
    if strContains s "rate_limit_exceeded" || strContains s "Request too large" then
      if strContains s "tokens per minute" || strContains s "TPM" then some .rateLimitTPM
      else none
    else if strContains s "413" || strContains s "Request Entity Too Large" then
      some .payloadTooLarge
    else if strContains s "429" || strContains s "Too Many Requests" then
      some .rateLimited
    else if strContains s "401" || strContains s "403" ||
        strContains (strToLower s) "unauthorized" || strContains (strToLower s) "forbidden" then
      some .authConfig
    else if containsAnyLower s ["connection", "network", "timeout", "unreachable"] then
      some .network
    else if strContains s "Event loop is closed" || strContains s "RuntimeError" then
      none
    else if containsAnyLower s ["model", "llm", "inference", "generation"] then
      some .modelGeneration
    else
      some .generic

/-- The function create_error_assistant_message of chat.py: when the
classification chain assigns a content, one assistant-role row holding it is
committed and returned; otherwise nothing is persisted and None is
returned. -/
def create_error_assistant_message (error : PyError) (session_id agent_name username : String)
    (s : DBState) : Option ChatMessage × DBState :=
  match classify_error error with
  | none => (none, s)
  | some k =>
    let (mid, s1) := freshId s
    let m : ChatMessage :=
      ⟨mid, session_id, agent_name, "assistant", errorBody k, username, username, s1.clock⟩
    (some m, appendMsg s1 m)

/-! Tool call approval endpoint (chat.py: approve_tool_call, lines 1218-1543). -/

/-- The request schema ToolCallApprovalRequest (schemas/chat.py); the action
literal is kept as a string because the endpoint itself re-checks it. -/
structure ToolCallApprovalRequest where
  action : String
  modifiedParameters : Option PyDict
  rejectionReason : Option String
deriving Repr, DecidableEq

/-- The response schema ToolCallApprovalResponse (schemas/chat.py). -/
structure ToolCallApprovalResponse where
  success : Bool
  message : String
  continuationId : Option String
deriving Repr, DecidableEq

/-- An HTTPException raised outside the protected block of the endpoint
(the 404 guards), which FastAPI surfaces to the caller unchanged. -/
inductive HTTPError where
  | notFound (detail : String)
  | badRequest (detail : String)
deriving Repr, DecidableEq

/-- The approval audit text of chat.py lines 1274-1281; for modify, the
parameters render as their json.dumps when truthy and as the text None
otherwise, matching the conditional expression of the source. -/
def approval_audit_content (req : ToolCallApprovalRequest) (username : String) : String :=
  if req.action = "approve" then
    "User " ++ username ++ " approved the tool call"
  else if req.action = "modify" then
    "User " ++ username ++ " modified the tool call with parameters: " ++
      (match req.modifiedParameters with
       | some d => if d.nonempty then d.dump else "None"
       | none => "None")
  else
    "User " ++ username ++ " rejected the tool call. Reason: " ++
      req.rejectionReason.getD "No reason provided"

/-- Replace the first list element satisfying the predicate by its image
under f; the ORM setattr-then-commit pattern of the source updates exactly
the single row object its query returned, which is the first match of the
query predicate. -/
def updateFirst (p : ChatMessage → Bool) (f : ChatMessage → ChatMessage) :
    List ChatMessage → List ChatMessage
  | [] => []
  | m :: rest => if p m then f m :: rest else m :: updateFirst p f rest

/-- In-place rewrite of the stored tool_input message content performed by
the modify branch (chat.py lines 1337-1342): the row fetched by the endpoint
(first match of id, session and tool_input role) has its content and
last_updated_by changed, nothing else does. -/
def updateMsgContent (s : DBState) (sessionId messageId content username : String) : DBState :=
  let msgs := updateFirst
    (fun m => m.msg_id == messageId && m.msg_cht_id == sessionId && m.msg_role == "tool_input")
    (fun m => { m with msg_content := content, last_updated_by := username })
    s.messages
  { s with messages := msgs }

/-- The generic except-Exception handler of approve_tool_call (chat.py lines
1530-1543): the caught exception text is classified into an assistant error
message and a failure response is returned; no tool is invoked on this
path. -/
def approve_caught (sessionId agentName username errText : String) (s : DBState) :
    ToolCallApprovalResponse × DBState × List Invocation :=
  let (mOpt, s') := create_error_assistant_message (.otherError errText)
    sessionId agentName username s
  (⟨false, "Error processing tool call approval. An error message has been added to the conversation.",
    mOpt.map (·.msg_id)⟩, s', [])

/-- The continuation persistence loop of approve_tool_call (chat.py lines
1458-1501): each continuation message is classified and committed in order,
and continuation_id tracks the id of the last row written. -/
def persistContinuation (sessionId agentName username : String) :
    DBState → List LCMessage → String → DBState × String
  | s, [], contId => (s, contId)
  | s, m :: rest, _contId =>
    let (mid, s1) := freshId s
    let rc := classify_continuation m
    let dbm : ChatMessage :=
      ⟨mid, sessionId, agentName, rc.1, rc.2, username, username, s1.clock⟩
    persistContinuation sessionId agentName username (appendMsg s1 dbm) rest mid

/-- The tail of the approve/modify execution path (chat.py lines 1361-1508),
from the tool_response row onward: the tool_response is committed; when the
agent has no configured LLM the endpoint answers early, otherwise the
conversation continues and the persisted continuation messages follow. -/
def approve_exec_finish (sessionId : String) (req : ToolCallApprovalRequest)
    (username : String) (w : MCPWorld) (agent : Agent) (s3 : DBState)
    (tool_response_content : String) (trace : List Invocation) :
    ToolCallApprovalResponse × DBState × List Invocation :=
  let (trid, s4) := freshId s3
  let trMsg : ChatMessage :=
    ⟨trid, sessionId, agent.agt_name, "tool_response", tool_response_content,
     username, username, s4.clock⟩
  let s5 := appendMsg s4 trMsg
  let llmFound := match agent.agt_llc_id with
    | some i => s5.llms.contains i
    | none => false
  if llmFound then
    let contResult := persistContinuation sessionId agent.agt_name username
      s5 (w.continuation.getD []) trid
    let action_word := if req.action = "approve" then "approved" else "modified"
    (⟨true, "Tool call " ++ action_word ++ " and executed successfully",
      some contResult.2⟩, contResult.1, trace)
  else
    (⟨true, "Tool call " ++ req.action ++
        "d successfully, but could not continue conversation (LLM not configured)",
      some trid⟩, s5, trace)

/-- The approve/modify execution path of approve_tool_call (chat.py lines
1330-1508), entered once the stored tool call parses: the split content
yields the tool name and argument string; the modify action with truthy
modified parameters rewrites the stored tool_input row and uses them,
otherwise the original argument string is json-parsed (with the dict
fallback on a parse error); the call then runs through
process_tool_call_approval and finishes with the tool_response commit and
the continuation. -/
def approve_exec_happy (sessionId messageId : String) (req : ToolCallApprovalRequest)
    (username : String) (w : MCPWorld) (agent : Agent) (s2 : DBState)
    (namePart original_arguments_str : String) :
    ToolCallApprovalResponse × DBState × List Invocation :=
  let tool_name := strReplaceAll namePart "Tool: " ""
  let parseOriginal : PyDict :=
    (w.jsonLoads original_arguments_str).getD ⟨wrapArgsDump original_arguments_str, true⟩
  let tpState :=
    match req.modifiedParameters with
    | some d =>
      if req.action = "modify" ∧ d.nonempty then
        (d, updateMsgContent s2 sessionId messageId
              ("Tool: " ++ tool_name ++ ", Arguments: " ++ d.dump) username)
      else (parseOriginal, s2)
    | none => (parseOriginal, s2)
  let execTrace := process_tool_call_approval tool_name tpState.1 req.action w
    (if req.action = "modify" then req.modifiedParameters else none) none
  let tool_response_content :=
    if execTrace.1.success then execTrace.1.result
    else "Tool execution failed: " ++ (execTrace.1.error).getD "Unknown error"
  approve_exec_finish sessionId req username w agent tpState.2 tool_response_content execTrace.2

/-- The audit system row committed first by every resolution (chat.py lines
1272-1294). -/
def auditRowOf (sessionId : String) (req : ToolCallApprovalRequest)
    (username agentName : String) (s : DBState) : ChatMessage :=
  ⟨"uuid-" ++ toString s.nextId, sessionId, agentName, "system", "[APPROVAL DECISION] " ++ approval_audit_content req username, username, username, s.clock⟩

/-- The store after committing the audit row (the freshId draw plus the
append of chat.py lines 1272-1294). -/
def auditState (sessionId : String) (req : ToolCallApprovalRequest)
    (username agentName : String) (s : DBState) : DBState :=
  appendMsg { s with nextId := s.nextId + 1 } (auditRowOf sessionId req username agentName s)

/-- The protected body of approve_tool_call (chat.py lines 1255-1543), after
the three 404 guards have found the session, the tool_input message and the
agent: the audit system message is committed first; reject synthesizes a
tool_response without executing anything; approve and modify parse the stored
call, execute it through process_tool_call_approval, commit the tool_response
and the LLM continuation; a malformed stored call and an unknown action raise
HTTPExceptions that the surrounding except-handler converts into an assistant
error message and a failure response. -/
def approve_tool_call_body (sessionId messageId : String) (req : ToolCallApprovalRequest)
    (username : String) (w : MCPWorld) (dbMsg : ChatMessage) (agent : Agent) (s : DBState) :
    ToolCallApprovalResponse × DBState × List Invocation :=
  let s2 := auditState sessionId req username agent.agt_name s
  if req.action = "reject" then
    let rejection_reason := req.rejectionReason.getD "Tool call was rejected by user"
    let (rid, s3) := freshId s2
    let rejMsg : ChatMessage :=
      ⟨rid, sessionId, agent.agt_name, "tool_response",
       "Tool call rejected: " ++ rejection_reason, username, username, s3.clock⟩
    (⟨true, "Tool call rejected successfully", some rid⟩, appendMsg s3 rejMsg, [])
  else if req.action = "approve" ∨ req.action = "modify" then
    if strStartsWith dbMsg.msg_content "Tool: " then
      match splitOnce dbMsg.msg_content ", Arguments: " with
      | some po =>
        approve_exec_happy sessionId messageId req username w agent s2 po.1 po.2
      | none =>
        approve_caught sessionId agent.agt_name username
          "400: Invalid tool call format in message" s2
    else
      approve_caught sessionId agent.agt_name username
        "400: Invalid tool call format in message" s2
  else
    approve_caught sessionId agent.agt_name username
      ("400: Invalid action: " ++ req.action) s2

/-- The endpoint approve_tool_call of chat.py: the session, the tool_input
message (found by id, session and role) and the agent must exist, then the
protected body runs.  Nothing marks a tool_input message as resolved, so the
lookup succeeds again after a resolution. -/
def approve_tool_call (sessionId messageId : String) (req : ToolCallApprovalRequest)
    (username : String) (w : MCPWorld) (s : DBState) :
    Except HTTPError (ToolCallApprovalResponse × DBState × List Invocation) :=
  match s.sessions.find? (fun c => c.cht_id == sessionId) with
  | none => .error (.notFound ("Chat session '" ++ sessionId ++ "' not found"))
  | some sess =>
    match s.messages.find? (fun m =>
        m.msg_id == messageId && m.msg_cht_id == sessionId && m.msg_role == "tool_input") with
    | none => .error (.notFound ("Tool input message '" ++ messageId ++
        "' not found in session '" ++ sessionId ++ "'"))
    | some dbMsg =>
      match s.agents.find? (fun a => a.agt_id == sess.cht_agt_id) with
      | none => .error (.notFound "Agent for session not found")
      | some agent => .ok (approve_tool_call_body sessionId messageId req username w dbMsg agent s)

/-! Message edit / rewind (chat.py: update_chat_message, lines 826-1035).
Only the edit transaction itself is embedded (through the commit at line
886); the LLM regeneration that follows appends further rows and is outside
the scope of the edit claims. -/

/-- Failure modes of the edit transaction: the three 404 guards, the
user-role guard, and a commit failure of the storage layer. -/
inductive EditError where
  | sessionNotFound
  | messageNotFound
  | notUserMessage
  | agentNotFound
  | commitFailed
deriving Repr, DecidableEq

/-- The field rewrite of the edited row (chat.py lines 871-874): content
replaced, agent name re-derived, role forced back to user. -/
def editRow (newContent agentName username : String) (m : ChatMessage) : ChatMessage :=
  { m with msg_content := newContent, msg_agent_name := agentName, msg_role := "user", last_updated_by := username }

/-- The survival predicate of the deletion query (chat.py lines 877-884):
a row is deleted exactly when it belongs to the session and its creation
timestamp is strictly later than the edited message's. -/
def editKeep (sessionId : String) (cutoff : Nat) (x : ChatMessage) : Bool :=
  !(x.msg_cht_id == sessionId && cutoff < x.creation_dt)

/-- The edit transaction of update_chat_message: the target user message has
its content replaced, its agent name re-derived, its role forced back to
user, and every message of the same session with a strictly later creation
timestamp is deleted.  The content rewrite and the deletions are flushed by
the single commit at chat.py line 886, so the embedding applies them
atomically; commitOk abstracts whether that commit succeeds, and on failure
the transaction rolls back and the store is unchanged (the error result
carries no new state). -/
def update_chat_message (sessionId messageId newContent username : String)
    (commitOk : Bool) (s : DBState) : Except EditError DBState :=
  match s.sessions.find? (fun c => c.cht_id == sessionId) with
  | none => .error .sessionNotFound
  | some sess =>
    match s.messages.find? (fun m => m.msg_id == messageId && m.msg_cht_id == sessionId) with
    | none => .error .messageNotFound
    | some dbMsg =>
      if dbMsg.msg_role ≠ "user" then .error .notUserMessage
      else
        match s.agents.find? (fun a => a.agt_id == sess.cht_agt_id) with
        | none => .error .agentNotFound
        | some agent =>
          if commitOk then
            let edited := updateFirst
              (fun m => m.msg_id == messageId && m.msg_cht_id == sessionId)
              (editRow newContent agent.agt_name username)
              s.messages
            let kept := edited.filter (editKeep sessionId dbMsg.creation_dt)
            .ok { s with messages := kept }
          else .error .commitFailed

/-! Shared helper lemmas. -/

/-- Helper: find? is stable under appending on the right. -/
theorem find?_append_some {α : Type} {p : α → Bool} {l₁ : List α} (l₂ : List α) {a : α}
    (h : l₁.find? p = some a) : (l₁ ++ l₂).find? p = some a := by
  induction l₁ with
  | nil => simp [List.find?] at h
  | cons x xs ih =>
    rw [List.cons_append]
    cases hx : p x with
    | true =>
      rw [List.find?_cons_of_pos _ hx] at h
      rw [List.find?_cons_of_pos _ hx]
      exact h
    | false =>
      rw [List.find?_cons_of_neg _ (by simp [hx])] at h
      rw [List.find?_cons_of_neg _ (by simp [hx])]
      exact ih h

/-- Helper: a successful find? decomposes the list around the first match,
and updateFirst rewrites exactly that element. -/
theorem find?_updateFirst_decomp {p : ChatMessage → Bool} {l : List ChatMessage}
    {a : ChatMessage} (h : l.find? p = some a) :
    ∃ A B, l = A ++ a :: B ∧ (∀ x ∈ A, p x = false) ∧
      ∀ f, updateFirst p f l = A ++ f a :: B := by
  induction l with
  | nil => simp [List.find?] at h
  | cons x xs ih =>
    cases hx : p x with
    | true =>
      rw [List.find?_cons_of_pos _ hx] at h
      obtain rfl : x = a := by injection h
      exact ⟨[], xs, rfl, by simp, fun f => by simp [updateFirst, hx]⟩
    | false =>
      rw [List.find?_cons_of_neg _ (by simp [hx])] at h
      obtain ⟨A, B, hdec, hA, hup⟩ := ih h
      refine ⟨x :: A, B, by rw [List.cons_append, hdec], ?_, ?_⟩
      · intro y hy
        rcases List.mem_cons.mp hy with rfl | hy
        · exact hx
        · exact hA y hy
      · intro f
        have := hup f
        simp [updateFirst, hx, this]

/-- Helper: the continuation classifier never yields a system role. -/
theorem classify_continuation_ne_system (m : LCMessage) :
    (classify_continuation m).1 ≠ "system" := by
  cases m with
  | ai content tcs =>
    cases tcs with
    | nil => simp [classify_continuation]
    | cons tc rest =>
      by_cases hc : content = "" <;> simp [classify_continuation, hc]
  | human c => simp [classify_continuation]
  | system c => simp [classify_continuation]
  | tool c => simp [classify_continuation]
  | other c => simp [classify_continuation]

/-- Helper: the continuation persistence loop only appends rows, none of
them with the system role, and leaves the other store components alone. -/
theorem persistContinuation_messages (sessionId agentName username : String) :
    ∀ (msgs : List LCMessage) (s : DBState) (contId : String),
      ∃ new, (persistContinuation sessionId agentName username s msgs contId).1.messages
          = s.messages ++ new ∧
        (∀ x ∈ new, x.msg_role ≠ "system") ∧
        (persistContinuation sessionId agentName username s msgs contId).1.sessions
          = s.sessions ∧
        (persistContinuation sessionId agentName username s msgs contId).1.agents
          = s.agents ∧
        (persistContinuation sessionId agentName username s msgs contId).1.llms
          = s.llms := by
  intro msgs
  induction msgs with
  | nil =>
    intro s contId
    exact ⟨[], by simp [persistContinuation], by simp, rfl, rfl, rfl⟩
  | cons m rest ih =>
    intro s contId
    obtain ⟨new, hmsgs, hroles, hsess, hag, hllm⟩ :=
      ih (appendMsg { s with nextId := s.nextId + 1 }
            ⟨"uuid-" ++ toString s.nextId, sessionId, agentName,
             (classify_continuation m).1, (classify_continuation m).2,
             username, username, s.clock⟩)
        ("uuid-" ++ toString s.nextId)
    refine ⟨⟨"uuid-" ++ toString s.nextId, sessionId, agentName,
        (classify_continuation m).1, (classify_continuation m).2,
        username, username, s.clock⟩ :: new, ?_, ?_, ?_, ?_, ?_⟩
    · rw [persistContinuation]
      simp only [freshId, appendMsg] at hmsgs ⊢
      rw [hmsgs]
      simp
    · intro x hx
      rcases List.mem_cons.mp hx with rfl | hx
      · exact classify_continuation_ne_system m
      · exact hroles x hx
    · rw [persistContinuation]; simpa [freshId, appendMsg] using hsess
    · rw [persistContinuation]; simpa [freshId, appendMsg] using hag
    · rw [persistContinuation]; simpa [freshId, appendMsg] using hllm

/-! Claim C5 - role classification of a raw model turn. -/

/-- C5: a raw model turn with non-empty text and no tool directive is stored
as an assistant row with the text; a turn with a tool directive and empty
text is stored as a tool_input row holding the canonical tool/arguments
encoding; a turn carrying both keeps the text as an assistant row and drops
the tool directive. -/
theorem C5_role_classification (content : String) (tcs : List ToolCallRec) :
    (content ≠ "" → tcs = [] →
      classify_message (.ai content tcs) = ("assistant", content)) ∧
    (∀ tc rest, tcs = tc :: rest → content = "" →
      classify_message (.ai content tcs) = ("tool_input", toolInputContent tc)) ∧
    (content ≠ "" → tcs ≠ [] →
      classify_message (.ai content tcs) = ("assistant", content)) := by
  refine ⟨?_, ?_, ?_⟩
  · intro _ htcs
    subst htcs
    simp [classify_message]
  · intro tc rest htcs hc
    subst htcs
    subst hc
    simp [classify_message]
  · intro hc _
    cases tcs with
    | nil => simp [classify_message]
    | cons tc rest => simp [classify_message, hc]

/-- Witness for C5 at concrete turns: text only, tool directive only, and
both together. -/
theorem C5_witness :
    classify_message (.ai "hello" []) = ("assistant", "hello") ∧
    classify_message (.ai "" [⟨some "calculator", some "\x7b\"a\": 2\x7d"⟩]) =
      ("tool_input", "Tool: calculator, Arguments: \x7b\"a\": 2\x7d") ∧
    classify_message (.ai "partial text" [⟨some "calculator", some "\x7b\x7d"⟩]) =
      ("assistant", "partial text") := by
  refine ⟨(C5_role_classification "hello" []).1 (by decide) rfl, ?_, ?_⟩
  · exact (C5_role_classification "" [⟨some "calculator", some "\x7b\"a\": 2\x7d"⟩]).2.1
      ⟨some "calculator", some "\x7b\"a\": 2\x7d"⟩ [] rfl rfl
  · exact (C5_role_classification "partial text" [⟨some "calculator", some "\x7b\x7d"⟩]).2.2
      (by decide) (by decide)

/-! Claim C7 - tool invocation errors are never silently swallowed. -/

/-- Helper: execute_mcp_tool always yields a structured success/error
result. -/
theorem execute_mcp_tool_structured (tool_name : String) (parameters : PyDict) (w : MCPWorld) :
    ((execute_mcp_tool tool_name parameters w).1.success = true ∧
      (execute_mcp_tool tool_name parameters w).1.error = none) ∨
    ((execute_mcp_tool tool_name parameters w).1.success = false ∧
      ((execute_mcp_tool tool_name parameters w).1.error).isSome = true) := by
  unfold execute_mcp_tool
  split
  · simp
  · split
    · simp
    · split
      · split <;> simp
      · simp

/-- C7: every tool invocation returns a structured result: a success flag
with an error of none on success and a present error description on failure,
both for execute_mcp_tool and for process_tool_call_approval around it. -/
theorem C7_invoke_structured (tool_name : String) (parameters : PyDict) (action : String)
    (w : MCPWorld) (modified : Option PyDict) (reason : Option String) :
    (((execute_mcp_tool tool_name parameters w).1.success = true ∧
        (execute_mcp_tool tool_name parameters w).1.error = none) ∨
      ((execute_mcp_tool tool_name parameters w).1.success = false ∧
        ((execute_mcp_tool tool_name parameters w).1.error).isSome = true)) ∧
    (((process_tool_call_approval tool_name parameters action w modified reason).1.success = true ∧
        (process_tool_call_approval tool_name parameters action w modified reason).1.error = none) ∨
      ((process_tool_call_approval tool_name parameters action w modified reason).1.success = false ∧
        ((process_tool_call_approval tool_name parameters action w modified reason).1.error).isSome = true)) := by
  refine ⟨execute_mcp_tool_structured tool_name parameters w, ?_⟩
  unfold process_tool_call_approval
  split
  · simp
  · split
    · rcases execute_mcp_tool_structured tool_name
        (match modified with
         | some d => if action = "modify" ∧ d.nonempty then d else parameters
         | none => parameters) w with ⟨h1, h2⟩ | ⟨h1, h2⟩
      · left; exact ⟨by simpa using h1, by simpa using h2⟩
      · right; exact ⟨by simpa using h1, by simpa using h2⟩
    · simp

/-! Claim C8 - proxy environment scoping. -/

/-- Concrete proxy environment present before a call: the host already has
an HTTP proxy exported. -/
def proxyEnvBefore : ProxyEnv :=
  ⟨some "http://prior-proxy:3128", none, none, none, none, none⟩

/-- Concrete application proxy settings used for the call. -/
def proxyCfg : ProxySettings :=
  ⟨some "http://corp-proxy:8080", none, none⟩

/-- Counterexample to C8: after a proxy_required call the prior proxy
environment is not restored - the finally block of configure_llm pops every
proxy variable, so a pre-existing HTTP_PROXY value is lost even on the
success path. -/
theorem C8_counterexample :
    proxyEnvBefore.http_upper = some "http://prior-proxy:3128" ∧
    (configure_llm_proxy true proxyCfg true proxyEnvBefore).2.http_upper = none ∧
    (configure_llm_proxy true proxyCfg true proxyEnvBefore).2 ≠ proxyEnvBefore := by
  decide

/-- C8 amended: with proxy_required the proxy variables are scoped to the
call in the weaker sense that configure_llm always leaves all six unset
afterwards, on the success and on the failure path alike (rather than
restoring their prior values); without proxy_required the environment is
untouched. -/
theorem C8_proxy_cleared (cfg : ProxySettings) (buildOk : Bool) (env : ProxyEnv) :
    (configure_llm_proxy true cfg buildOk env).2 = ⟨none, none, none, none, none, none⟩ ∧
    (configure_llm_proxy false cfg buildOk env).2 = env := by
  exact ⟨rfl, rfl⟩

/-! Claim C6 - connection retry with exponential backoff. -/

/-- Helper: a successful retry loop never uses more attempts than the
bound. -/
theorem retryAux_ok_le {f : Nat → Option String} {maxRetries : Nat} :
    ∀ fuel att acc a d, maxRetries ≤ att + fuel →
      retryAux f maxRetries att acc = .ok (a, d) → a ≤ maxRetries := by
  intro fuel
  induction fuel with
  | zero =>
    intro att acc a d hle h
    rw [retryAux] at h
    rw [if_neg (by omega)] at h
    exact absurd h (by simp)
  | succ n ih =>
    intro att acc a d hle h
    rw [retryAux] at h
    by_cases hlt : att < maxRetries
    · rw [if_pos hlt] at h
      cases hf : f att with
      | none =>
        simp only [hf, Except.ok.injEq, Prod.mk.injEq] at h
        obtain ⟨h1, -⟩ := h
        omega
      | some e =>
        simp only [hf] at h
        by_cases hlast : att = maxRetries - 1
        · rw [if_pos hlast] at h
          exact absurd h (by simp)
        · rw [if_neg hlast] at h
          exact ih (att + 1) _ a d (by omega) h
    · rw [if_neg hlt] at h
      exact absurd h (by simp)

/-- C6: connection establishment makes at most MAX_RETRIES = 3 attempts,
with the exponential backoff (0.5 s, then 1.0 s) slept before the retries;
a connection failing on the first two attempts and succeeding on the third
returns success after sleeping at least 0.5 s + 1.0 s (1500 ms) between
attempts. -/
theorem C6_retry_backoff (attemptResult : Nat → Option String) :
    (∀ a d, create_test_connection_with_retry attemptResult = .ok (a, d) →
      a ≤ MAX_RETRIES) ∧
    (∀ e0 e1, attemptResult 0 = some e0 → attemptResult 1 = some e1 →
      attemptResult 2 = none →
      ∃ d, create_test_connection_with_retry attemptResult = .ok (3, d) ∧ 1500 ≤ d) := by
  constructor
  · intro a d h
    exact retryAux_ok_le 3 0 0 a d (by decide) h
  · intro e0 e1 h0 h1 h2
    unfold create_test_connection_with_retry MAX_RETRIES
    rw [retryAux]
    simp only [h0, backoffDelay, BASE_DELAY_MS]
    norm_num
    rw [retryAux]
    simp only [h1, backoffDelay, BASE_DELAY_MS]
    norm_num
    rw [retryAux]
    simp only [h2, backoffDelay, BASE_DELAY_MS]
    norm_num
    split_ifs <;> omega

/-- Concrete attempt oracle: the first two connection attempts raise, the
third succeeds. -/
def retryOracle : Nat → Option String :=
  fun n => if n < 2 then some "connection refused" else none

/-- Witness for C6: the oracle failing twice and succeeding on the third
attempt yields success with at least 1500 ms of backoff. -/
theorem C6_witness :
    ∃ d, create_test_connection_with_retry retryOracle = .ok (3, d) ∧ 1500 ≤ d :=
  (C6_retry_backoff retryOracle).2 "connection refused" "connection refused" rfl rfl rfl

/-! Claim C9 - one synthesized assistant message per surfaced failure. -/

/-- The failure shapes for which create_error_assistant_message persists
nothing, read off the amended claim: an HTTP status error whose code is
outside the handled set (413, 429, 401, 403, 500+); a text-form rate-limit
error without per-minute token details; and an error text matching none of
the handled patterns but matching the event-loop/RuntimeError pattern. -/
def error_suppressed (e : PyError) : Bool :=
  match e with
  | .httpStatusError code _ =>
    decide (code ≠ 413 ∧ code ≠ 429 ∧ ¬(code = 401 ∨ code = 403) ∧ code < 500)
  | .requestError _ => false
  | .timeoutException _ => false
  | .otherError s =>
    ((strContains s "rate_limit_exceeded" || strContains s "Request too large") &&
      !(strContains s "tokens per minute" || strContains s "TPM")) ||
    (!(strContains s "rate_limit_exceeded" || strContains s "Request too large") &&
      !(strContains s "413" || strContains s "Request Entity Too Large") &&
      !(strContains s "429" || strContains s "Too Many Requests") &&
      !(strContains s "401" || strContains s "403" ||
        strContains (strToLower s) "unauthorized" || strContains (strToLower s) "forbidden") &&
      !(containsAnyLower s ["connection", "network", "timeout", "unreachable"]) &&
      (strContains s "Event loop is closed" || strContains s "RuntimeError"))

/-- Helper: the classification chain assigns no content exactly on the
suppressed shapes. -/
theorem classify_error_none_iff (e : PyError) :
    classify_error e = none ↔ error_suppressed e = true := by
  cases e with
  | httpStatusError code text =>
    simp only [classify_error, error_suppressed, decide_eq_true_eq]
    split_ifs with h1 h2 h3 h4 <;> simp <;> omega
  | requestError text => simp [classify_error, error_suppressed]
  | timeoutException text => simp [classify_error, error_suppressed]
  | otherError s =>
    simp only [classify_error, error_suppressed]
    cases hrl : strContains s "rate_limit_exceeded" || strContains s "Request too large" <;>
    cases htpm : strContains s "tokens per minute" || strContains s "TPM" <;>
    cases h413 : strContains s "413" || strContains s "Request Entity Too Large" <;>
    cases h429 : strContains s "429" || strContains s "Too Many Requests" <;>
    cases hauth : (strContains s "401" || strContains s "403" ||
      strContains (strToLower s) "unauthorized" || strContains (strToLower s) "forbidden") <;>
    cases hnet : containsAnyLower s ["connection", "network", "timeout", "unreachable"] <;>
    cases hrt : strContains s "Event loop is closed" || strContains s "RuntimeError" <;>
    simp [hrl, htpm, h413, h429, hauth, hnet, hrt] <;>
    try (split_ifs <;> simp)

/-- Empty store used by the concrete scenarios. -/
def dbEmpty : DBState := ⟨[], [], [], [], 0, 0⟩

/-- Counterexample to C9: an HTTP status error with code 404 - which is not
an event-loop/runtime fault - reaches create_error_assistant_message and
persists no assistant message at all: the isinstance branch leaves
error_content unset for status codes outside 413/429/401/403/500+ and the
function returns None. -/
theorem C9_counterexample :
    (create_error_assistant_message (.httpStatusError 404 "Client error '404 Not Found'")
        "sess-1" "Agent" "alice" dbEmpty).1 = none ∧
    (create_error_assistant_message (.httpStatusError 404 "Client error '404 Not Found'")
        "sess-1" "Agent" "alice" dbEmpty).2.messages = [] := by
  decide

/-- C9 amended: exactly one synthesized assistant message is persisted per
surfaced failure, except for the suppressed shapes (the internal
event-loop/RuntimeError category, an HTTP status error with a code outside
the handled set, and a text rate-limit error without per-minute token
details), for which nothing is persisted. -/
theorem C9_error_message_per_failure (e : PyError) (session_id agent_name username : String)
    (s : DBState) :
    (error_suppressed e = true →
      (create_error_assistant_message e session_id agent_name username s).1 = none ∧
      (create_error_assistant_message e session_id agent_name username s).2 = s) ∧
    (error_suppressed e = false →
      ∃ m, (create_error_assistant_message e session_id agent_name username s).1 = some m ∧
        (create_error_assistant_message e session_id agent_name username s).2.messages
          = s.messages ++ [m] ∧
        m.msg_role = "assistant") := by
  constructor
  · intro hsup
    have hcl : classify_error e = none := (classify_error_none_iff e).mpr hsup
    simp [create_error_assistant_message, hcl]
  · intro hsup
    cases hcl : classify_error e with
    | none =>
      rw [classify_error_none_iff e] at hcl
      rw [hsup] at hcl
      exact absurd hcl (by simp)
    | some k =>
      refine ⟨⟨"uuid-" ++ toString s.nextId, session_id, agent_name, "assistant",
        errorBody k, username, username, s.clock⟩, ?_, ?_, rfl⟩
      · simp [create_error_assistant_message, hcl, freshId, appendMsg]
      · simp [create_error_assistant_message, hcl, freshId, appendMsg]

/-- Witness for C9 at a concrete non-suppressed failure: a network error
persists exactly one assistant message. -/
theorem C9_witness :
    ∃ m, (create_error_assistant_message (.requestError "connection refused")
        "sess-1" "Agent" "alice" dbEmpty).1 = some m ∧
      (create_error_assistant_message (.requestError "connection refused")
        "sess-1" "Agent" "alice" dbEmpty).2.messages = dbEmpty.messages ++ [m] ∧
      m.msg_role = "assistant" :=
  (C9_error_message_per_failure (.requestError "connection refused")
    "sess-1" "Agent" "alice" dbEmpty).2 rfl

/-! Claim C3 - message edit / rewind is exact and all-or-nothing. -/

/-- C3: editing the user message M replaces its content, forces its role to
user, and deletes exactly the rows of the same session with a strictly later
creation timestamp (the surviving list is the old list around the edited row,
filtered by exactly that predicate and nothing else); with a failing commit
the transaction returns an error and the store is unchanged (the whole
rewrite and deletion are flushed by the single commit of chat.py line 886,
so the error result carries no new state). -/
theorem C3_edit_rewind_atomic (sessionId messageId newContent username : String)
    (s : DBState) (sess : ChatSession) (dbMsg : ChatMessage) (ag : Agent)
    (hs : s.sessions.find? (fun c => c.cht_id == sessionId) = some sess)
    (hm : s.messages.find? (fun m => m.msg_id == messageId && m.msg_cht_id == sessionId)
      = some dbMsg)
    (hrole : dbMsg.msg_role = "user")
    (ha : s.agents.find? (fun a => a.agt_id == sess.cht_agt_id) = some ag) :
    (∃ A B s',
      s.messages = A ++ dbMsg :: B ∧
      update_chat_message sessionId messageId newContent username true s = .ok s' ∧
      s'.messages =
        A.filter (editKeep sessionId dbMsg.creation_dt) ++
          editRow newContent ag.agt_name username dbMsg ::
            B.filter (editKeep sessionId dbMsg.creation_dt) ∧
      s'.sessions = s.sessions ∧ s'.agents = s.agents ∧ s'.llms = s.llms) ∧
    update_chat_message sessionId messageId newContent username false s =
      .error .commitFailed := by
  obtain ⟨A, B, hdec, hA, hup⟩ := find?_updateFirst_decomp hm
  constructor
  · have heq : update_chat_message sessionId messageId newContent username true s = .ok { s with messages := A.filter (editKeep sessionId dbMsg.creation_dt) ++ editRow newContent ag.agt_name username dbMsg :: B.filter (editKeep sessionId dbMsg.creation_dt) } := by
      simp only [update_chat_message, hs, hm, ha, hrole]
      rw [if_neg (by simp)]
      rw [hup (editRow newContent ag.agt_name username)]
      rw [if_pos trivial]
      rw [List.filter_append]
      rw [List.filter_cons_of_pos (by simp [editKeep, editRow])]
    exact ⟨A, B, _, hdec, heq, rfl, rfl, rfl, rfl⟩
  · simp only [update_chat_message, hs, hm, ha, hrole]
    rw [if_neg (by simp)]
    rfl

/-- Concrete store for the edit scenario: one session with a user message,
a later assistant message, and an unrelated message of another session. -/
def dbC3 : DBState :=
  ⟨[⟨"sess-1", "agent-1"⟩], [⟨"agent-1", "Agent", none, none⟩], [],
   [⟨"m1", "sess-1", "Agent", "user", "old question", "alice", "alice", 0⟩,
    ⟨"m2", "sess-1", "Agent", "assistant", "old answer", "alice", "alice", 1⟩,
    ⟨"m3", "sess-2", "Agent", "user", "other session", "bob", "bob", 2⟩],
   3, 0⟩

/-- Witness for C3 at the concrete store: a successful edit commits and a
failing commit surfaces the error with no state. -/
theorem C3_witness :
    (update_chat_message "sess-1" "m1" "new question" "alice" true dbC3).isOk = true ∧
    update_chat_message "sess-1" "m1" "new question" "alice" false dbC3 =
      .error .commitFailed := by
  have h := C3_edit_rewind_atomic "sess-1" "m1" "new question" "alice" dbC3
    ⟨"sess-1", "agent-1"⟩ ⟨"m1", "sess-1", "Agent", "user", "old question", "alice", "alice", 0⟩
    ⟨"agent-1", "Agent", none, none⟩ rfl rfl rfl rfl
  obtain ⟨⟨A, B, s', hdec, hok, hrest⟩, hfail⟩ := h
  exact ⟨by rw [hok]; rfl, hfail⟩

/-! Claims C1, C2 - resolution of a pending tool call by reject, and
re-resolution of an already-resolved call. -/

/-- Helper: updateFirst rewrites the first match when the prefix has no
match, whatever follows. -/
theorem updateFirst_append_first {p : ChatMessage → Bool} {f : ChatMessage → ChatMessage}
    {A : List ChatMessage} (hA : ∀ x ∈ A, p x = false)
    {a : ChatMessage} (hpa : p a = true) (C : List ChatMessage) :
    updateFirst p f (A ++ a :: C) = A ++ f a :: C := by
  induction A with
  | nil => simp [updateFirst, hpa]
  | cons x xs ih =>
    have hx : p x = false := hA x (by simp)
    simp only [List.cons_append, updateFirst, hx]
    simp [ih (fun y hy => hA y (by simp [hy]))]

/-- The audit system row committed by the reject branch (chat.py lines
1272-1294 with the reject audit text). -/
def rejectAuditMsg (sessionId : String) (req : ToolCallApprovalRequest)
    (username agentName : String) (s : DBState) : ChatMessage :=
  ⟨"uuid-" ++ toString s.nextId, sessionId, agentName, "system", "[APPROVAL DECISION] " ++ approval_audit_content req username, username, username, s.clock⟩

/-- The synthesized tool_response row committed by the reject branch
(chat.py lines 1296-1312). -/
def rejectRespMsg (sessionId : String) (req : ToolCallApprovalRequest)
    (username agentName : String) (s : DBState) : ChatMessage :=
  ⟨"uuid-" ++ toString (s.nextId + 1), sessionId, agentName, "tool_response", "Tool call rejected: " ++ req.rejectionReason.getD "Tool call was rejected by user", username, username, s.clock + 1⟩

/-- The store after a reject resolution: the audit row then the synthesized
tool_response row are appended, nothing else changes. -/
def rejectState (sessionId : String) (req : ToolCallApprovalRequest)
    (username agentName : String) (s : DBState) : DBState :=
  { s with messages := s.messages ++ [rejectAuditMsg sessionId req username agentName s, rejectRespMsg sessionId req username agentName s], clock := s.clock + 2, nextId := s.nextId + 2 }

/-- Helper: full characterization of the reject path of the endpoint. -/
theorem approve_tool_call_reject (sessionId messageId username : String)
    (req : ToolCallApprovalRequest) (w : MCPWorld) (s : DBState)
    (sess : ChatSession) (dbMsg : ChatMessage) (agent : Agent)
    (hs : s.sessions.find? (fun c => c.cht_id == sessionId) = some sess)
    (hm : s.messages.find? (fun m =>
      m.msg_id == messageId && m.msg_cht_id == sessionId && m.msg_role == "tool_input")
      = some dbMsg)
    (ha : s.agents.find? (fun a => a.agt_id == sess.cht_agt_id) = some agent)
    (hact : req.action = "reject") :
    approve_tool_call sessionId messageId req username w s =
      .ok (⟨true, "Tool call rejected successfully", some ("uuid-" ++ toString (s.nextId + 1))⟩,
        rejectState sessionId req username agent.agt_name s, []) := by
  simp only [approve_tool_call, hs, hm, ha]
  simp only [approve_tool_call_body, hact]
  simp [freshId, appendMsg, auditState, auditRowOf, rejectState, rejectAuditMsg,
    rejectRespMsg, approval_audit_content, hact]

/-- C2: a reject resolution never invokes the tool (the invocation trace is
empty and the connector is never reached), appends the audit row and then a
tool_response row whose content is synthesized from the supplied rejection
reason, with the default text used when no reason is supplied. -/
theorem C2_reject_no_invoke (sessionId messageId username : String)
    (req : ToolCallApprovalRequest) (w : MCPWorld) (s : DBState)
    (sess : ChatSession) (dbMsg : ChatMessage) (agent : Agent)
    (tn : String) (tp : PyDict) (mp : Option PyDict) (rr : Option String)
    (hs : s.sessions.find? (fun c => c.cht_id == sessionId) = some sess)
    (hm : s.messages.find? (fun m =>
      m.msg_id == messageId && m.msg_cht_id == sessionId && m.msg_role == "tool_input")
      = some dbMsg)
    (ha : s.agents.find? (fun a => a.agt_id == sess.cht_agt_id) = some agent)
    (hact : req.action = "reject") :
    (∃ audit rej s',
      approve_tool_call sessionId messageId req username w s =
        .ok (⟨true, "Tool call rejected successfully", some rej.msg_id⟩, s', []) ∧
      s'.messages = s.messages ++ [audit, rej] ∧
      rej.msg_role = "tool_response" ∧
      rej.msg_content = "Tool call rejected: " ++
        req.rejectionReason.getD "Tool call was rejected by user") ∧
    (process_tool_call_approval tn tp "reject" w mp rr).2 = [] ∧
    (process_tool_call_approval tn tp "reject" w mp rr).1.result =
      "Tool call rejected: " ++ rr.getD "Tool call was rejected by user" := by
  refine ⟨⟨rejectAuditMsg sessionId req username agent.agt_name s,
    rejectRespMsg sessionId req username agent.agt_name s,
    rejectState sessionId req username agent.agt_name s,
    approve_tool_call_reject sessionId messageId username req w s sess dbMsg agent hs hm ha hact,
    rfl, rfl, rfl⟩, ?_, ?_⟩
  · simp [process_tool_call_approval]
  · simp [process_tool_call_approval]

/-- Concrete tool world: one server exposing a calculator tool that returns
4, with JSON parsing of the stored arguments succeeding, and no
continuation from the model. -/
def wC1 : MCPWorld :=
  ⟨true, .ok ["calculator"], fun _ _ => .ok "4", fun _ => some ⟨"parsed-args", true⟩, none⟩

/-- Concrete store: one session holding a user message and a pending
tool_input message. -/
def dbC1 : DBState :=
  ⟨[⟨"sess-1", "agent-1"⟩], [⟨"agent-1", "Agent", none, none⟩], [],
   [⟨"m1", "sess-1", "Agent", "user", "What is 2+2?", "alice", "alice", 0⟩,
    ⟨"m2", "sess-1", "Agent", "tool_input", "Tool: calculator, Arguments: \x7b\"a\": 2\x7d", "alice", "alice", 1⟩],
   2, 0⟩

/-- Approval request with no modifications. -/
def reqApprove : ToolCallApprovalRequest := ⟨"approve", none, none⟩

/-- Rejection request carrying a reason. -/
def reqReject : ToolCallApprovalRequest := ⟨"reject", none, some "not needed"⟩

/-- Witness for C2 at the concrete rejection scenario. -/
theorem C2_witness :
    (∃ audit rej s',
      approve_tool_call "sess-1" "m2" reqReject "alice" wC1 dbC1 =
        .ok (⟨true, "Tool call rejected successfully", some rej.msg_id⟩, s', []) ∧
      s'.messages = dbC1.messages ++ [audit, rej] ∧
      rej.msg_role = "tool_response" ∧
      rej.msg_content = "Tool call rejected: " ++
        reqReject.rejectionReason.getD "Tool call was rejected by user") ∧
    (process_tool_call_approval "calculator" ⟨"parsed-args", true⟩ "reject" wC1 none (some "not needed")).2 = [] ∧
    (process_tool_call_approval "calculator" ⟨"parsed-args", true⟩ "reject" wC1 none (some "not needed")).1.result =
      "Tool call rejected: " ++ (some "not needed").getD "Tool call was rejected by user" :=
  C2_reject_no_invoke "sess-1" "m2" "alice" reqReject wC1 dbC1
    ⟨"sess-1", "agent-1"⟩
    ⟨"m2", "sess-1", "Agent", "tool_input", "Tool: calculator, Arguments: \x7b\"a\": 2\x7d", "alice", "alice", 1⟩
    ⟨"agent-1", "Agent", none, none⟩
    "calculator" ⟨"parsed-args", true⟩ none (some "not needed") rfl rfl rfl rfl

/-- Projection of the endpoint outcome to its resulting store, with a
fallback for the error case. -/
def resultStateOf (r : Except HTTPError (ToolCallApprovalResponse × DBState × List Invocation))
    (dflt : DBState) : DBState :=
  match r with
  | .ok p => p.2.1
  | .error _ => dflt

/-- Projection of the endpoint outcome to its response, when not an
HTTP error. -/
def responseOf (r : Except HTTPError (ToolCallApprovalResponse × DBState × List Invocation)) :
    Option ToolCallApprovalResponse :=
  match r with
  | .ok p => some p.1
  | .error _ => none

/-- Projection of the endpoint outcome to its invocation trace. -/
def traceOf (r : Except HTTPError (ToolCallApprovalResponse × DBState × List Invocation)) :
    List Invocation :=
  match r with
  | .ok p => p.2.2
  | .error _ => []

/-- Counterexample to C1: resolving the same pending tool call twice with
approve succeeds both times - the second attempt is neither an
InvalidStateError (no such error exists in the code) nor a no-op: it
re-executes the tool (non-empty invocation trace) and persists four further
rows across the two resolutions. -/
theorem C1_counterexample :
    (responseOf (approve_tool_call "sess-1" "m2" reqApprove "alice" wC1 dbC1)).map
      (fun r => r.success) = some true ∧
    (responseOf (approve_tool_call "sess-1" "m2" reqApprove "alice" wC1
      (resultStateOf (approve_tool_call "sess-1" "m2" reqApprove "alice" wC1 dbC1) dbC1))).map
      (fun r => r.success) = some true ∧
    traceOf (approve_tool_call "sess-1" "m2" reqApprove "alice" wC1
      (resultStateOf (approve_tool_call "sess-1" "m2" reqApprove "alice" wC1 dbC1) dbC1))
      = [⟨"calculator", ⟨"parsed-args", true⟩⟩] ∧
    (resultStateOf (approve_tool_call "sess-1" "m2" reqApprove "alice" wC1
      (resultStateOf (approve_tool_call "sess-1" "m2" reqApprove "alice" wC1 dbC1) dbC1))
      dbC1).messages.length = dbC1.messages.length + 4 := by
  decide

/-- C1 amended: nothing marks a resolved call, so a second resolution
attempt on the same tool_input message id is processed again exactly like
the first: it succeeds (no InvalidStateError) and persists two further rows
(audit and tool_response), shown here for the rejection action. -/
theorem C1_second_resolution_processed_again (sessionId messageId username : String)
    (req : ToolCallApprovalRequest) (w : MCPWorld) (s : DBState)
    (sess : ChatSession) (dbMsg : ChatMessage) (agent : Agent)
    (hs : s.sessions.find? (fun c => c.cht_id == sessionId) = some sess)
    (hm : s.messages.find? (fun m =>
      m.msg_id == messageId && m.msg_cht_id == sessionId && m.msg_role == "tool_input")
      = some dbMsg)
    (ha : s.agents.find? (fun a => a.agt_id == sess.cht_agt_id) = some agent)
    (hact : req.action = "reject") :
    approve_tool_call sessionId messageId req username w s =
      .ok (⟨true, "Tool call rejected successfully", some ("uuid-" ++ toString (s.nextId + 1))⟩,
        rejectState sessionId req username agent.agt_name s, []) ∧
    approve_tool_call sessionId messageId req username w
        (rejectState sessionId req username agent.agt_name s) =
      .ok (⟨true, "Tool call rejected successfully", some ("uuid-" ++ toString (s.nextId + 3))⟩,
        rejectState sessionId req username agent.agt_name
          (rejectState sessionId req username agent.agt_name s), []) ∧
    (rejectState sessionId req username agent.agt_name
      (rejectState sessionId req username agent.agt_name s)).messages.length
      = s.messages.length + 4 := by
  have h1 := approve_tool_call_reject sessionId messageId username req w s sess dbMsg agent
    hs hm ha hact
  have hm2 : (rejectState sessionId req username agent.agt_name s).messages.find? (fun m =>
      m.msg_id == messageId && m.msg_cht_id == sessionId && m.msg_role == "tool_input")
      = some dbMsg := find?_append_some _ hm
  have h2 := approve_tool_call_reject sessionId messageId username req w
    (rejectState sessionId req username agent.agt_name s) sess dbMsg agent hs hm2 ha hact
  refine ⟨h1, h2, ?_⟩
  simp [rejectState]

/-- Witness for C1 at the concrete double-rejection scenario: the second
resolution still returns a well-formed success result. -/
theorem C1_witness :
    (approve_tool_call "sess-1" "m2" reqReject "alice" wC1
      (rejectState "sess-1" reqReject "alice" "Agent" dbC1)).isOk = true := by
  have h := C1_second_resolution_processed_again "sess-1" "m2" "alice" reqReject wC1 dbC1
    ⟨"sess-1", "agent-1"⟩
    ⟨"m2", "sess-1", "Agent", "tool_input", "Tool: calculator, Arguments: \x7b\"a\": 2\x7d", "alice", "alice", 1⟩
    ⟨"agent-1", "Agent", none, none⟩ rfl rfl rfl rfl
  rw [h.2.1]
  rfl

/-! Claims C4, C10 - audit ordering and modify-without-parameters. -/

/-- Helper: the execution tail only appends rows - the tool_response and
the continuation messages, none of them system-role - and passes the
invocation trace through unchanged. -/
theorem approve_exec_finish_shape (sessionId : String) (req : ToolCallApprovalRequest)
    (username : String) (w : MCPWorld) (agent : Agent) (s3 : DBState)
    (c : String) (tr : List Invocation) :
    ∃ resp s',
      approve_exec_finish sessionId req username w agent s3 c tr = (resp, s', tr) ∧
      ∃ new, s'.messages = s3.messages ++ new ∧
        (∀ x ∈ new, x.msg_role ≠ "system") ∧
        s'.sessions = s3.sessions ∧ s'.agents = s3.agents ∧ s'.llms = s3.llms := by
  unfold approve_exec_finish
  rcases hllc : agent.agt_llc_id with _ | i
  · simp only [hllc, freshId, appendMsg]
    refine ⟨_, _, rfl, [⟨"uuid-" ++ toString s3.nextId, sessionId, agent.agt_name,
      "tool_response", c, username, username, s3.clock⟩], by simp, ?_, rfl, rfl, rfl⟩
    intro x hx
    rcases List.mem_singleton.mp hx with rfl
    simp
  · simp only [hllc, freshId, appendMsg]
    by_cases hl : s3.llms.contains i = true
    · simp only [hl, if_true]
      obtain ⟨new2, h1, h2, h3, h4, h5⟩ := persistContinuation_messages sessionId
        agent.agt_name username (w.continuation.getD [])
        (appendMsg { s3 with nextId := s3.nextId + 1 }
          ⟨"uuid-" ++ toString s3.nextId, sessionId, agent.agt_name, "tool_response",
           c, username, username, s3.clock⟩)
        ("uuid-" ++ toString s3.nextId)
      simp only [appendMsg] at h1 h3 h4 h5
      refine ⟨_, _, rfl, ⟨"uuid-" ++ toString s3.nextId, sessionId, agent.agt_name,
        "tool_response", c, username, username, s3.clock⟩ :: new2, ?_, ?_, ?_, ?_, ?_⟩
      · rw [h1]; simp
      · intro x hx
        rcases List.mem_cons.mp hx with rfl | hx
        · simp
        · exact h2 x hx
      · rw [h3]
      · rw [h4]
      · rw [h5]
    · simp only [hl, if_false]
      refine ⟨_, _, rfl, [⟨"uuid-" ++ toString s3.nextId, sessionId, agent.agt_name,
        "tool_response", c, username, username, s3.clock⟩], by simp, ?_, rfl, rfl, rfl⟩
      intro x hx
      rcases List.mem_singleton.mp hx with rfl
      simp

/-- Helper: the approve/modify happy path is the execution tail applied to
either the unchanged store or the store with the single tool_input row
rewritten. -/
theorem approve_exec_happy_shape (sessionId messageId : String) (req : ToolCallApprovalRequest)
    (username : String) (w : MCPWorld) (agent : Agent) (s2 : DBState)
    (namePart args : String) :
    ∃ c0 tr0 s30,
      approve_exec_happy sessionId messageId req username w agent s2 namePart args =
        approve_exec_finish sessionId req username w agent s30 c0 tr0 ∧
      (s30.messages = s2.messages ∨
        ∃ c, s30.messages = updateFirst
          (fun m => m.msg_id == messageId && m.msg_cht_id == sessionId && m.msg_role == "tool_input")
          (fun m => { m with msg_content := c, last_updated_by := username })
          s2.messages) ∧
      s30.sessions = s2.sessions ∧ s30.agents = s2.agents ∧ s30.llms = s2.llms := by
  unfold approve_exec_happy
  rcases hmp : req.modifiedParameters with _ | d
  · exact ⟨_, _, _, rfl, Or.inl rfl, rfl, rfl, rfl⟩
  · by_cases hc : req.action = "modify" ∧ d.nonempty
    · simp only [hc, if_true]
      exact ⟨_, _, _, rfl, Or.inr ⟨_, rfl⟩, rfl, rfl, rfl⟩
    · simp only [hc, if_false]
      exact ⟨_, _, _, rfl, Or.inl rfl, rfl, rfl, rfl⟩

/-- Helper: the str of the HTTPException raised for a malformed stored tool
call lands in the generic branch of the error classifier. -/
theorem classify_format_error :
    classify_error (.otherError "400: Invalid tool call format in message")
      = some .generic := by
  decide

/-- Helper: the caught-exception handler appends exactly one assistant row
when the exception text classifies, and invokes nothing. -/
theorem approve_caught_shape (sessionId agentName username errText : String) (s2 : DBState)
    (k : ErrorMessageKind) (hcl : classify_error (.otherError errText) = some k) :
    ∃ resp s', approve_caught sessionId agentName username errText s2 = (resp, s', []) ∧
      ∃ m, s'.messages = s2.messages ++ [m] ∧ m.msg_role = "assistant" := by
  unfold approve_caught
  simp only [create_error_assistant_message, hcl, freshId, appendMsg]
  exact ⟨_, _, rfl, ⟨"uuid-" ++ toString s2.nextId, sessionId, agentName, "assistant",
    errorBody k, username, username, s2.clock⟩, rfl, rfl⟩

/-- Helper: shape of the endpoint on the approve and modify actions - the
audit row is appended right after the (possibly content-rewritten) prior
rows, and everything after it is non-system. -/
theorem approve_tool_call_am_shape (sessionId messageId username : String)
    (req : ToolCallApprovalRequest) (w : MCPWorld) (s : DBState)
    (sess : ChatSession) (dbMsg : ChatMessage) (agent : Agent)
    (hs : s.sessions.find? (fun c => c.cht_id == sessionId) = some sess)
    (hm : s.messages.find? (fun m =>
      m.msg_id == messageId && m.msg_cht_id == sessionId && m.msg_role == "tool_input")
      = some dbMsg)
    (ha : s.agents.find? (fun a => a.agt_id == sess.cht_agt_id) = some agent)
    (hor : req.action = "approve" ∨ req.action = "modify") :
    ∃ resp s' tr pre rest,
      approve_tool_call sessionId messageId req username w s = .ok (resp, s', tr) ∧
      s'.messages = pre ++ auditRowOf sessionId req username agent.agt_name s :: rest ∧
      pre.map ChatMessage.msg_role = s.messages.map ChatMessage.msg_role ∧
      (∀ x ∈ rest, x.msg_role ≠ "system") := by
  have hnr : ¬req.action = "reject" := by rcases hor with h | h <;> simp [h]
  simp only [approve_tool_call, hs, hm, ha]
  simp only [approve_tool_call_body]
  rw [if_neg hnr, if_pos hor]
  by_cases hfmt : strStartsWith dbMsg.msg_content "Tool: " = true
  · rw [if_pos hfmt]
    cases hsp : splitOnce dbMsg.msg_content ", Arguments: " with
    | some po =>
      dsimp only
      obtain ⟨c0, tr0, s30, heq, hbase, hse30, hag30, hll30⟩ :=
        approve_exec_happy_shape sessionId messageId req username w agent
          (auditState sessionId req username agent.agt_name s) po.1 po.2
      obtain ⟨resp, s', hfin, new, hmsg, hrole, -, -, -⟩ :=
        approve_exec_finish_shape sessionId req username w agent s30 c0 tr0
      rw [heq, hfin]
      rcases hbase with hb | ⟨c, hb⟩
      · refine ⟨resp, s', tr0, s.messages, new, rfl, ?_, rfl, hrole⟩
        rw [hmsg, hb]
        simp [auditState, appendMsg]
      · obtain ⟨A, B, hdecomp, hA, -⟩ := find?_updateFirst_decomp hm
        have hp : (dbMsg.msg_id == messageId && dbMsg.msg_cht_id == sessionId &&
            dbMsg.msg_role == "tool_input") = true := by
          simpa using List.find?_some hm
        have hsm : (auditState sessionId req username agent.agt_name s).messages
            = A ++ dbMsg :: (B ++ [auditRowOf sessionId req username agent.agt_name s]) := by
          simp [auditState, appendMsg, hdecomp]
        rw [hsm, updateFirst_append_first hA hp] at hb
        refine ⟨resp, s', tr0,
          A ++ { dbMsg with msg_content := c, last_updated_by := username } :: B,
          new, rfl, ?_, ?_, hrole⟩
        · rw [hmsg, hb]
          simp
        · rw [hdecomp]
          simp
    | none =>
      dsimp only
      obtain ⟨resp, s', hc, m, hmsg, hrole⟩ := approve_caught_shape sessionId agent.agt_name
        username "400: Invalid tool call format in message"
        (auditState sessionId req username agent.agt_name s) .generic classify_format_error
      rw [hc]
      refine ⟨resp, s', [], s.messages, [m], rfl, ?_, rfl, ?_⟩
      · rw [hmsg]; simp [auditState, appendMsg]
      · intro x hx
        rcases List.mem_singleton.mp hx with rfl
        simp [hrole]
  · rw [if_neg hfmt]
    obtain ⟨resp, s', hc, m, hmsg, hrole⟩ := approve_caught_shape sessionId agent.agt_name
      username "400: Invalid tool call format in message"
      (auditState sessionId req username agent.agt_name s) .generic classify_format_error
    rw [hc]
    refine ⟨resp, s', [], s.messages, [m], rfl, ?_, rfl, ?_⟩
    · rw [hmsg]; simp [auditState, appendMsg]
    · intro x hx
      rcases List.mem_singleton.mp hx with rfl
      simp [hrole]

/-- C4: every resolution of a pending tool call (approve, modify or reject)
commits exactly one audit system row before any resulting tool_response or
continuation row: the store after the call is the prior rows (roles
untouched) followed by the audit row followed only by non-system rows. -/
theorem C4_audit_first (sessionId messageId username : String)
    (req : ToolCallApprovalRequest) (w : MCPWorld) (s : DBState)
    (sess : ChatSession) (dbMsg : ChatMessage) (agent : Agent)
    (hs : s.sessions.find? (fun c => c.cht_id == sessionId) = some sess)
    (hm : s.messages.find? (fun m =>
      m.msg_id == messageId && m.msg_cht_id == sessionId && m.msg_role == "tool_input")
      = some dbMsg)
    (ha : s.agents.find? (fun a => a.agt_id == sess.cht_agt_id) = some agent)
    (hact3 : req.action = "approve" ∨ req.action = "modify" ∨ req.action = "reject") :
    ∃ resp s' tr pre audit rest,
      approve_tool_call sessionId messageId req username w s = .ok (resp, s', tr) ∧
      s'.messages = pre ++ audit :: rest ∧
      pre.map ChatMessage.msg_role = s.messages.map ChatMessage.msg_role ∧
      audit.msg_role = "system" ∧
      audit.msg_content = "[APPROVAL DECISION] " ++ approval_audit_content req username ∧
      (∀ x ∈ rest, x.msg_role ≠ "system") := by
  rcases hact3 with hact | hact | hact
  · obtain ⟨resp, s', tr, pre, rest, h1, h2, h3, h4⟩ :=
      approve_tool_call_am_shape sessionId messageId username req w s sess dbMsg agent
        hs hm ha (Or.inl hact)
    exact ⟨resp, s', tr, pre, _, rest, h1, h2, h3, rfl, rfl, h4⟩
  · obtain ⟨resp, s', tr, pre, rest, h1, h2, h3, h4⟩ :=
      approve_tool_call_am_shape sessionId messageId username req w s sess dbMsg agent
        hs hm ha (Or.inr hact)
    exact ⟨resp, s', tr, pre, _, rest, h1, h2, h3, rfl, rfl, h4⟩
  · have h := approve_tool_call_reject sessionId messageId username req w s sess dbMsg agent
      hs hm ha hact
    refine ⟨_, _, [], s.messages, rejectAuditMsg sessionId req username agent.agt_name s,
      [rejectRespMsg sessionId req username agent.agt_name s], h, ?_, rfl, rfl, rfl, ?_⟩
    · simp [rejectState]
    · intro x hx
      rcases List.mem_singleton.mp hx with rfl
      simp [rejectRespMsg]

/-- Witness for C4 at the concrete approval scenario. -/
theorem C4_witness :
    ∃ resp s' tr pre audit rest,
      approve_tool_call "sess-1" "m2" reqApprove "alice" wC1 dbC1 = .ok (resp, s', tr) ∧
      s'.messages = pre ++ audit :: rest ∧
      pre.map ChatMessage.msg_role = dbC1.messages.map ChatMessage.msg_role ∧
      audit.msg_role = "system" ∧
      audit.msg_content = "[APPROVAL DECISION] " ++ approval_audit_content reqApprove "alice" ∧
      (∀ x ∈ rest, x.msg_role ≠ "system") :=
  C4_audit_first "sess-1" "m2" "alice" reqApprove wC1 dbC1
    ⟨"sess-1", "agent-1"⟩
    ⟨"m2", "sess-1", "Agent", "tool_input", "Tool: calculator, Arguments: \x7b\"a\": 2\x7d", "alice", "alice", 1⟩
    ⟨"agent-1", "Agent", none, none⟩ rfl rfl rfl (Or.inl rfl)

/-- Helper: with no modified parameters supplied, the happy path runs the
execution tail on the unchanged store. -/
theorem approve_exec_happy_noparams (sessionId messageId : String)
    (req : ToolCallApprovalRequest) (username : String) (w : MCPWorld) (agent : Agent)
    (s2 : DBState) (namePart args : String)
    (hmp : req.modifiedParameters = none) :
    ∃ c0 tr0,
      approve_exec_happy sessionId messageId req username w agent s2 namePart args =
        approve_exec_finish sessionId req username w agent s2 c0 tr0 := by
  unfold approve_exec_happy
  simp only [hmp]
  exact ⟨_, _, rfl⟩

/-- C10: a modify resolution with no modified parameters supplied behaves
exactly like approve: process_tool_call_approval executes with the original
parameters (its parameters field and its invocation trace equal the approve
ones, and its result differs only in the recorded action word), and the
endpoint leaves the stored tool_input row untouched - the store only grows
and the same tool_input row is still found unchanged afterwards. -/
theorem C10_modify_without_params (sessionId messageId username : String)
    (req : ToolCallApprovalRequest) (w : MCPWorld) (s : DBState)
    (sess : ChatSession) (dbMsg : ChatMessage) (agent : Agent)
    (tool_name : String) (params : PyDict)
    (hs : s.sessions.find? (fun c => c.cht_id == sessionId) = some sess)
    (hm : s.messages.find? (fun m =>
      m.msg_id == messageId && m.msg_cht_id == sessionId && m.msg_role == "tool_input")
      = some dbMsg)
    (ha : s.agents.find? (fun a => a.agt_id == sess.cht_agt_id) = some agent)
    (hact : req.action = "modify") (hmp : req.modifiedParameters = none) :
    ((process_tool_call_approval tool_name params "modify" w none none).1.parameters = params ∧
     (process_tool_call_approval tool_name params "modify" w none none).2 =
       (process_tool_call_approval tool_name params "approve" w none none).2 ∧
     (process_tool_call_approval tool_name params "modify" w none none).1 =
       { (process_tool_call_approval tool_name params "approve" w none none).1 with action := "modify" }) ∧
    (∃ resp s' tr,
      approve_tool_call sessionId messageId req username w s = .ok (resp, s', tr) ∧
      (∃ new, s'.messages = s.messages ++ new) ∧
      s'.messages.find? (fun m =>
        m.msg_id == messageId && m.msg_cht_id == sessionId && m.msg_role == "tool_input")
        = some dbMsg) := by
  refine ⟨⟨?_, ?_, ?_⟩, ?_⟩
  · simp [process_tool_call_approval]
  · simp [process_tool_call_approval]
  · simp [process_tool_call_approval]
  · simp only [approve_tool_call, hs, hm, ha]
    simp only [approve_tool_call_body]
    rw [if_neg (by simp [hact]), if_pos (Or.inr hact)]
    by_cases hfmt : strStartsWith dbMsg.msg_content "Tool: " = true
    · rw [if_pos hfmt]
      cases hsp : splitOnce dbMsg.msg_content ", Arguments: " with
      | some po =>
        dsimp only
        obtain ⟨c0, tr0, heq⟩ := approve_exec_happy_noparams sessionId messageId req username
          w agent (auditState sessionId req username agent.agt_name s) po.1 po.2 hmp
        obtain ⟨resp, s', hfin, new, hmsg, hrole, -, -, -⟩ :=
          approve_exec_finish_shape sessionId req username w agent
            (auditState sessionId req username agent.agt_name s) c0 tr0
        rw [heq, hfin]
        have hmsg2 : s'.messages = s.messages ++
            (auditRowOf sessionId req username agent.agt_name s :: new) := by
          rw [hmsg]
          simp [auditState, appendMsg]
        refine ⟨resp, s', tr0, rfl, ⟨_, hmsg2⟩, ?_⟩
        rw [hmsg2]
        exact find?_append_some _ hm
      | none =>
        dsimp only
        obtain ⟨resp, s', hc, m, hmsg, hrole⟩ := approve_caught_shape sessionId agent.agt_name
          username "400: Invalid tool call format in message"
          (auditState sessionId req username agent.agt_name s) .generic classify_format_error
        rw [hc]
        have hmsg2 : s'.messages = s.messages ++
            (auditRowOf sessionId req username agent.agt_name s :: [m]) := by
          rw [hmsg]
          simp [auditState, appendMsg]
        refine ⟨resp, s', [], rfl, ⟨_, hmsg2⟩, ?_⟩
        rw [hmsg2]
        exact find?_append_some _ hm
    · rw [if_neg hfmt]
      obtain ⟨resp, s', hc, m, hmsg, hrole⟩ := approve_caught_shape sessionId agent.agt_name
        username "400: Invalid tool call format in message"
        (auditState sessionId req username agent.agt_name s) .generic classify_format_error
      rw [hc]
      have hmsg2 : s'.messages = s.messages ++
          (auditRowOf sessionId req username agent.agt_name s :: [m]) := by
        rw [hmsg]
        simp [auditState, appendMsg]
      refine ⟨resp, s', [], rfl, ⟨_, hmsg2⟩, ?_⟩
      rw [hmsg2]
      exact find?_append_some _ hm

/-- Modification request that supplies no modified parameters. -/
def reqModifyNone : ToolCallApprovalRequest := ⟨"modify", none, none⟩

/-- Witness for C10 at the concrete scenario. -/
theorem C10_witness :
    ((process_tool_call_approval "calculator" ⟨"parsed-args", true⟩ "modify" wC1 none none).1.parameters = ⟨"parsed-args", true⟩ ∧
     (process_tool_call_approval "calculator" ⟨"parsed-args", true⟩ "modify" wC1 none none).2 =
       (process_tool_call_approval "calculator" ⟨"parsed-args", true⟩ "approve" wC1 none none).2 ∧
     (process_tool_call_approval "calculator" ⟨"parsed-args", true⟩ "modify" wC1 none none).1 =
       { (process_tool_call_approval "calculator" ⟨"parsed-args", true⟩ "approve" wC1 none none).1 with action := "modify" }) ∧
    (∃ resp s' tr,
      approve_tool_call "sess-1" "m2" reqModifyNone "alice" wC1 dbC1 = .ok (resp, s', tr) ∧
      (∃ new, s'.messages = dbC1.messages ++ new) ∧
      s'.messages.find? (fun m =>
        m.msg_id == "m2" && m.msg_cht_id == "sess-1" && m.msg_role == "tool_input")
        = some ⟨"m2", "sess-1", "Agent", "tool_input", "Tool: calculator, Arguments: \x7b\"a\": 2\x7d", "alice", "alice", 1⟩) :=
  C10_modify_without_params "sess-1" "m2" "alice" reqModifyNone wC1 dbC1
    ⟨"sess-1", "agent-1"⟩
    ⟨"m2", "sess-1", "Agent", "tool_input", "Tool: calculator, Arguments: \x7b\"a\": 2\x7d", "alice", "alice", 1⟩
    ⟨"agent-1", "Agent", none, none⟩ "calculator" ⟨"parsed-args", true⟩ rfl rfl rfl rfl rfl

end Viki
